import Mathlib

/-!
Shallow embedding of the Video-Upscaling-GenAI repository
(`src/video_upscaling.py` and `src/main.py`).

External libraries (OpenCV `cv2`, `psutil`, `os`) are modelled as explicit
state passed to the embedded functions: a `VideoSource` stands for the
result of `cv2.VideoCapture(path)`, a stream `Nat → MemInfo` stands for the
successive answers of `psutil.virtual_memory()`, and booleans stand for the
success of `os.remove` and of the moviepy audio stage.  Python exceptions
become `Except`; `sys.exit(n)` becomes an explicit exit code in the result.
-/

set_option autoImplicit false

namespace VideoUpscaling

/- Model of the OpenCV interpolation-kernel constants used by
`get_interpolation_method` (their numeric values in `cv2`). -/
namespace cv2

def INTER_NEAREST : Nat := 0

def INTER_LINEAR : Nat := 1

def INTER_CUBIC : Nat := 2

def INTER_LANCZOS4 : Nat := 4

end cv2

/-- A decoded raster frame: its dimensions and pixel grid
(rows of pixel values). -/
structure Frame where
  width : Nat
  height : Nat
  pixels : List (List Nat)
deriving DecidableEq

/-- Pixel accessor with out-of-range reads defaulting to 0. -/
def Frame.pixelAt (f : Frame) (x y : Nat) : Nat :=
  (f.pixels.getD y []).getD x 0

/-- Model of the external `cv2.resize(frame, target, interpolation)`
primitive: it returns an image of exactly the requested target size, with
pixel content resampled from the input (index-mapped sampling; the precise
kernel selected by `interp` is internal to OpenCV and irrelevant to the
claims, which concern only dimensions and frame counts). -/
def cv2_resize (f : Frame) (target : Nat × Nat) (interp : Nat) : Frame :=
  { width := target.1
    height := target.2
    pixels :=
      (List.range target.2).map fun y =>
        (List.range target.1).map fun x =>
          f.pixelAt (x * f.width / max target.1 1) (y * f.height / max target.2 1) + interp * 0 }

/-- Model of the result of `cv2.VideoCapture(input_path)`: whether the
source opened, its reported properties, and its decodable frames in order
(`video_capture.read()` yields them one by one, then `ret = False`). -/
structure VideoSource where
  opened : Bool
  width : Nat
  height : Nat
  fps : Nat
  frames : List Frame
deriving DecidableEq

/-- Model of one answer of `psutil.virtual_memory()`. -/
structure MemInfo where
  available : Nat
  total : Nat
deriving DecidableEq

/-- `check_memory_limit` (src/video_upscaling.py:41-45): raises `MemoryError`
when available memory is below 10% of total.  The source compares
`mem.available < 0.1 * mem.total`; the constant 0.1 is modelled as the exact
rational 1/10, i.e. `10 * available < total` over the integers. -/
def check_memory_limit (m : MemInfo) : Except String Unit :=
  if 10 * m.available < m.total then
    .error "System is running out of memory. Aborting process."
  else
    .ok ()

/-- `get_interpolation_method` (src/video_upscaling.py:48-58): maps the
configured method name to the cv2 kernel constant, raising `ValueError`
(modelled as `.error` carrying the message) on any other string. -/
def get_interpolation_method (method_name : String) : Except String Nat :=
  if method_name = "INTER_LINEAR" then
    .ok cv2.INTER_LINEAR
  else if method_name = "INTER_NEAREST" then
    .ok cv2.INTER_NEAREST
  else if method_name = "INTER_CUBIC" then
    .ok cv2.INTER_CUBIC
  else if method_name = "INTER_LANCZOS4" then
    .ok cv2.INTER_LANCZOS4
  else
    .error ("Invalid interpolation method: " ++ method_name)

/-- The errors `upscale_video` can raise. -/
inductive UpError where
  | openFailure (msg : String)
  | memoryError (msg : String)
deriving DecidableEq

/-- The on-disk intermediate video file written by `cv2.VideoWriter`:
its path, the frame rate it was created with, and the frames written so
far. -/
structure IntermediateFile where
  path : String
  fps : Nat
  frames : List Frame
deriving DecidableEq

/-- State of the frame loop of `upscale_video`: frames written to the
writer so far (in order), the value of `frame_counter`, and how many times
`check_memory_limit` has sampled memory. -/
structure LoopState where
  written : List Frame
  counter : Nat
  checks : Nat
deriving DecidableEq

/-- The `while True` frame loop of `upscale_video`
(src/video_upscaling.py:78-91): read a frame, resize it, write it, bump
`frame_counter`; every `chunk_size` frames sample memory and abort on a
`MemoryError`.  On abort the error carries the loop state at that point
(the frames already written remain in the file on disk). -/
def runFrames (target : Nat × Nat) (interp : Nat) (mem : Nat → MemInfo)
    (chunk_size : Nat) : List Frame → LoopState → Except (String × LoopState) LoopState
  | [], st => .ok st
  | f :: rest, st =>
    let upscaled_frame := cv2_resize f target interp
    let written := st.written ++ [upscaled_frame]
    let counter := st.counter + 1
    if counter % chunk_size = 0 then
      match check_memory_limit (mem st.checks) with
      | .error msg => .error (msg, ⟨written, counter, st.checks + 1⟩)
      | .ok _ => runFrames target interp mem chunk_size rest ⟨written, counter, st.checks + 1⟩
    else
      runFrames target interp mem chunk_size rest ⟨written, counter, st.checks⟩

instance {ε α : Type} [DecidableEq ε] [DecidableEq α] : DecidableEq (Except ε α)
  | .ok a, .ok b => decidable_of_iff (a = b) (by simp)
  | .ok _, .error _ => isFalse (fun h => Except.noConfusion h)
  | .error _, .ok _ => isFalse (fun h => Except.noConfusion h)
  | .error e, .error f => decidable_of_iff (e = f) (by simp)

/-- Result of the resample stage: the propagated exception or success, the
state of the file at `temp_output_path` on disk (`none` when the
`cv2.VideoWriter` was never constructed), and how many memory checks
ran. -/
structure UpscaleOutcome where
  result : Except UpError Unit
  file : Option IntermediateFile
  memChecks : Nat
deriving DecidableEq

/-- `upscale_video` (src/video_upscaling.py:61-102): fails before creating
the writer when the capture is not opened; otherwise the writer is created
at `temp_output_path` with the source frame rate and the target resolution,
the frame loop runs, and a `MemoryError` from a periodic check is logged and
re-raised, leaving the partially written file in place. -/
def upscale_video (input_path : String) (cap : VideoSource)
    (temp_output_path : String) (target_resolution : Nat × Nat)
    (interpolation_method : Nat) (mem : Nat → MemInfo)
    (chunk_size : Nat) : UpscaleOutcome :=
  if cap.opened = false then
    { result := .error (.openFailure ("Unable to open video file: " ++ input_path))
      file := none
      memChecks := 0 }
  else
    match runFrames target_resolution interpolation_method mem chunk_size
        cap.frames ⟨[], 0, 0⟩ with
    | .ok st =>
      { result := .ok ()
        file := some ⟨temp_output_path, cap.fps, st.written⟩
        memChecks := st.checks }
    | .error (msg, st) =>
      { result := .error (.memoryError msg)
        file := some ⟨temp_output_path, cap.fps, st.written⟩
        memChecks := st.checks }

/-- The default of the `chunk_size=100` keyword parameter of
`upscale_video`. -/
def default_chunk_size : Nat := 100

/-- Result of `cleanup_temp_file`: the state of the temp file afterwards,
whether an exception propagated to the caller, and which log lines were
emitted. -/
structure CleanupResult where
  file : Option IntermediateFile
  raised : Bool
  warnedMissing : Bool
  errorLogged : Bool
  removed : Bool
deriving DecidableEq

/-- The `try` body of `cleanup_temp_file` (src/video_upscaling.py:120-125):
checks existence, removes the file (an `os.remove` failure raises), or logs
a warning when the file is absent.  Returns (resulting file state, warning
emitted, file removed). -/
def cleanup_body (file : Option IntermediateFile) (remove_ok : Bool) :
    Except String (Option IntermediateFile × Bool × Bool) :=
  match file with
  | some _ =>
    if remove_ok then .ok (none, false, true)
    else .error "os.remove failed"
  | none => .ok (none, true, false)

/-- `cleanup_temp_file` (src/video_upscaling.py:119-127): runs the body
under a catch-all `except` that logs the exception and returns normally, so
no exception ever propagates. -/
def cleanup_temp_file (file : Option IntermediateFile) (remove_ok : Bool) :
    CleanupResult :=
  match cleanup_body file remove_ok with
  | .ok (f, warned, removed) =>
    { file := f, raised := false, warnedMissing := warned
      errorLogged := false, removed := removed }
  | .error _ =>
    { file := file, raised := false, warnedMissing := false
      errorLogged := true, removed := false }

/-- Model of POSIX `os.path.join(a, b)` as called with the relative
constant component `temp_upscaled_video.mp4`. -/
def osPathJoin (a b : String) : String :=
  if b.startsWith "/" then b
  else if a = "" then b
  else if a.endsWith "/" then a ++ b
  else a ++ "/" ++ b

/-- The configuration record once `load_config` has parsed `config.json`
(keys read by `main`). -/
structure Config where
  log_dir : String
  interpolation_method : String
  output_folder : String
  input_video : String
  target_resolution : Nat × Nat
  output_video : String
deriving DecidableEq

/-- The environment a run of `main` executes in: the outcome of
`load_config` on `config.json`, the behaviour of `cv2.VideoCapture` on each
path, the memory readings, and whether the moviepy audio stage and
`os.remove` succeed. -/
structure Env where
  config : Except String Config
  openVideo : String → VideoSource
  mem : Nat → MemInfo
  audio_ok : Bool
  remove_ok : Bool

/-- Observable outcome of one run of `main` (src/video_upscaling.py:130-150):
the process exit code, the intermediate file the resample stage left on disk
(`none` when the writer was never constructed), the final state of the temp
path after the run, and which stages completed. -/
structure RunResult where
  exitCode : Nat
  tempCreated : Option IntermediateFile
  tempFile : Option IntermediateFile
  cleanupCalled : Bool
  upscaleOk : Bool
  audioOk : Bool
deriving DecidableEq

/-- The call `upscale_video` with the configured input video, temp output path
and target resolution made by `main`
(src/video_upscaling.py:138-139), with `temp_output_path =
os.path.join of the configured output folder and temp_upscaled_video.mp4` and the
default `chunk_size`. -/
def mainUpscale (env : Env) (config : Config) (interpolation_method : Nat) : UpscaleOutcome :=
  upscale_video config.input_video (env.openVideo config.input_video)
    (osPathJoin config.output_folder "temp_upscaled_video.mp4")
    config.target_resolution interpolation_method env.mem default_chunk_size

/-- The part of `main` after the interpolation method has been resolved
(src/video_upscaling.py:138-150): resample, reattach audio, clean up; any
exception propagates to the handlers of `main`, which exit with code 1. -/
def mainAfterInterp (env : Env) (config : Config) (interpolation_method : Nat) : RunResult :=
  match (mainUpscale env config interpolation_method).result with
  | .error _ =>
    { exitCode := 1
      tempCreated := (mainUpscale env config interpolation_method).file
      tempFile := (mainUpscale env config interpolation_method).file
      cleanupCalled := false, upscaleOk := false, audioOk := false }
  | .ok _ =>
    if env.audio_ok then
      { exitCode := 0
        tempCreated := (mainUpscale env config interpolation_method).file
        tempFile := (cleanup_temp_file (mainUpscale env config interpolation_method).file
          env.remove_ok).file
        cleanupCalled := true, upscaleOk := true, audioOk := true }
    else
      { exitCode := 1
        tempCreated := (mainUpscale env config interpolation_method).file
        tempFile := (mainUpscale env config interpolation_method).file
        cleanupCalled := false, upscaleOk := true, audioOk := false }

/-- `main` (src/video_upscaling.py:130-150): load config, configure logging,
resolve the interpolation method, resample to
`os.path.join(output_folder, temp_upscaled_video.mp4)`, reattach audio,
clean up; a `MemoryError` or any other exception ends the run with
`sys.exit(1)`, success exits with code 0. -/
def main (env : Env) : RunResult :=
  match env.config with
  | .error _ =>
    { exitCode := 1, tempCreated := none, tempFile := none
      cleanupCalled := false, upscaleOk := false, audioOk := false }
  | .ok config =>
    match get_interpolation_method config.interpolation_method with
    | .error _ =>
      { exitCode := 1, tempCreated := none, tempFile := none
        cleanupCalled := false, upscaleOk := false, audioOk := false }
    | .ok interpolation_method => mainAfterInterp env config interpolation_method

/-- Python `int()` applied to a nonnegative float value: truncation toward
zero, modelled over the rationals. -/
def pyInt (q : ℚ) : ℤ :=
  if 0 ≤ q then ⌊q⌋ else ⌈q⌉

/-- The target frame size computed by `upscale_video_with_audio`
(src/main.py:15 and src/main.py:24):
`(int(width * scale_factor), int(height * scale_factor))`. -/
def upscaled_size (width height : Nat) (scale_factor : ℚ) : ℤ × ℤ :=
  (pyInt (width * scale_factor), pyInt (height * scale_factor))

/-! ### Lemmas about the frame loop of `upscale_video` -/

theorem runFrames_ok_spec (target : Nat × Nat) (interp : Nat) (mem : Nat → MemInfo)
    (cs : Nat) (frames : List Frame) (st stq : LoopState)
    (h : runFrames target interp mem cs frames st = .ok stq) :
    stq.written.length = st.written.length + frames.length ∧
    ∀ fr ∈ stq.written, fr ∈ st.written ∨ (fr.width = target.1 ∧ fr.height = target.2) := by
  induction frames generalizing st with
  | nil =>
    simp only [runFrames] at h
    injection h with h
    subst h
    exact ⟨by simp, fun fr hfr => Or.inl hfr⟩
  | cons f rest ih =>
    simp only [runFrames] at h
    split at h
    · split at h
      · exact absurd h (by simp)
      · obtain ⟨h1, hmem⟩ := ih _ h
        refine ⟨by simp only [List.length_append, List.length_cons, List.length_nil] at h1 ⊢; omega, ?_⟩
        intro fr hfr
        rcases hmem fr hfr with hin | hd
        · rcases List.mem_append.mp hin with h3 | h3
          · exact Or.inl h3
          · obtain rfl := List.mem_singleton.mp h3
            exact Or.inr ⟨rfl, rfl⟩
        · exact Or.inr hd
    · obtain ⟨h1, hmem⟩ := ih _ h
      refine ⟨by simp only [List.length_append, List.length_cons, List.length_nil] at h1 ⊢; omega, ?_⟩
      intro fr hfr
      rcases hmem fr hfr with hin | hd
      · rcases List.mem_append.mp hin with h3 | h3
        · exact Or.inl h3
        · obtain rfl := List.mem_singleton.mp h3
          exact Or.inr ⟨rfl, rfl⟩
      · exact Or.inr hd

theorem runFrames_no_check (target : Nat × Nat) (interp : Nat) (mem : Nat → MemInfo)
    (cs : Nat) (frames : List Frame) (st : LoopState)
    (h : st.counter + frames.length < cs) :
    runFrames target interp mem cs frames st =
      .ok ⟨st.written ++ frames.map (fun f => cv2_resize f target interp),
        st.counter + frames.length, st.checks⟩ := by
  induction frames generalizing st with
  | nil =>
    simp only [runFrames, List.map_nil, List.append_nil, List.length_nil, Nat.add_zero]
  | cons f rest ih =>
    simp only [runFrames]
    have h1 : st.counter + 1 < cs := by
      simp only [List.length_cons] at h; omega
    have hne : ¬ (st.counter + 1) % cs = 0 := by
      rw [Nat.mod_eq_of_lt h1]; omega
    rw [if_neg hne]
    rw [ih ⟨st.written ++ [cv2_resize f target interp], st.counter + 1, st.checks⟩
      (by show st.counter + 1 + rest.length < cs
          simp only [List.length_cons] at h; omega)]
    have hcnt : st.counter + 1 + rest.length = st.counter + (f :: rest).length := by
      simp only [List.length_cons]; omega
    simp only [List.map_cons, hcnt]
    rw [← List.append_cons]

theorem runFrames_low_abort (target : Nat × Nat) (interp : Nat) (mem : Nat → MemInfo)
    (cs : Nat) (hlow : 10 * (mem 0).available < (mem 0).total)
    (frames : List Frame) (st : LoopState)
    (hchecks : st.checks = 0) (hlt : st.counter < cs) (hge : cs ≤ st.counter + frames.length) :
    runFrames target interp mem cs frames st =
      .error ("System is running out of memory. Aborting process.",
        ⟨st.written ++ ((frames.take (cs - st.counter)).map (fun f => cv2_resize f target interp)),
          cs, 1⟩) := by
  induction frames generalizing st with
  | nil => simp only [List.length_nil] at hge; omega
  | cons f rest ih =>
    simp only [runFrames]
    by_cases hc : st.counter + 1 = cs
    · have hz : (st.counter + 1) % cs = 0 := by rw [hc]; exact Nat.mod_self cs
      rw [if_pos hz, hchecks]
      have hcm : check_memory_limit (mem 0) =
          .error "System is running out of memory. Aborting process." := by
        unfold check_memory_limit; rw [if_pos hlow]
      rw [hcm]
      have ht : cs - st.counter = 1 := by omega
      rw [ht, hc]
      rfl
    · have h1 : st.counter + 1 < cs := by omega
      have hne : ¬ (st.counter + 1) % cs = 0 := by
        rw [Nat.mod_eq_of_lt h1]; omega
      rw [if_neg hne]
      rw [ih ⟨st.written ++ [cv2_resize f target interp], st.counter + 1, st.checks⟩
        hchecks h1 (by show cs ≤ st.counter + 1 + rest.length
                       simp only [List.length_cons] at hge; omega)]
      have ht : cs - st.counter = (cs - (st.counter + 1)) + 1 := by omega
      rw [ht]
      simp only [List.take_succ_cons, List.map_cons]
      rw [← List.append_cons]

/-! ### Reduction lemmas for `upscale_video` -/

theorem upscale_video_not_opened (ip : String) (cap : VideoSource) (p : String)
    (t : Nat × Nat) (i : Nat) (mem : Nat → MemInfo) (cs : Nat)
    (hopen : cap.opened = false) :
    upscale_video ip cap p t i mem cs =
      ⟨.error (.openFailure ("Unable to open video file: " ++ ip)), none, 0⟩ := by
  unfold upscale_video
  rw [hopen]
  rfl

theorem upscale_video_opened (ip : String) (cap : VideoSource) (p : String)
    (t : Nat × Nat) (i : Nat) (mem : Nat → MemInfo) (cs : Nat)
    (hopen : cap.opened = true) :
    upscale_video ip cap p t i mem cs =
      match runFrames t i mem cs cap.frames ⟨[], 0, 0⟩ with
      | .ok st => ⟨.ok (), some ⟨p, cap.fps, st.written⟩, st.checks⟩
      | .error (msg, st) => ⟨.error (.memoryError msg), some ⟨p, cap.fps, st.written⟩, st.checks⟩ := by
  unfold upscale_video
  rw [hopen]
  rw [if_neg (by simp : ¬ (true = false))]

/-! ### Reduction lemmas for `main` -/

theorem main_config_error (env : Env) (e : String) (hc : env.config = .error e) :
    main env = ⟨1, none, none, false, false, false⟩ := by
  unfold main; rw [hc]

theorem main_config_ok (env : Env) (c : Config) (hc : env.config = .ok c) :
    main env =
      match get_interpolation_method c.interpolation_method with
      | .error _ => ⟨1, none, none, false, false, false⟩
      | .ok i => mainAfterInterp env c i := by
  unfold main; rw [hc]

theorem main_interp_error (env : Env) (c : Config) (e : String)
    (hc : env.config = .ok c)
    (hg : get_interpolation_method c.interpolation_method = .error e) :
    main env = ⟨1, none, none, false, false, false⟩ := by
  rw [main_config_ok env c hc, hg]

theorem main_interp_ok (env : Env) (c : Config) (i : Nat)
    (hc : env.config = .ok c)
    (hg : get_interpolation_method c.interpolation_method = .ok i) :
    main env = mainAfterInterp env c i := by
  rw [main_config_ok env c hc, hg]

theorem mainAfterInterp_upscale_error (env : Env) (c : Config) (i : Nat) (err : UpError)
    (h : (mainUpscale env c i).result = .error err) :
    mainAfterInterp env c i =
      ⟨1, (mainUpscale env c i).file, (mainUpscale env c i).file, false, false, false⟩ := by
  unfold mainAfterInterp; rw [h]

theorem mainAfterInterp_audio (env : Env) (c : Config) (i : Nat)
    (h : (mainUpscale env c i).result = .ok ()) (ha : env.audio_ok = true) :
    mainAfterInterp env c i =
      ⟨0, (mainUpscale env c i).file,
        (cleanup_temp_file (mainUpscale env c i).file env.remove_ok).file, true, true, true⟩ := by
  unfold mainAfterInterp; rw [h, ha]
  rfl

theorem mainAfterInterp_no_audio (env : Env) (c : Config) (i : Nat)
    (h : (mainUpscale env c i).result = .ok ()) (ha : env.audio_ok = false) :
    mainAfterInterp env c i =
      ⟨1, (mainUpscale env c i).file, (mainUpscale env c i).file, false, true, false⟩ := by
  unfold mainAfterInterp; rw [h, ha]
  rfl

/-! ### Sample inputs used by the witnesses -/

def sampleFrame : Frame := ⟨2, 2, [[9, 8], [7, 6]]⟩

def sampleCap : VideoSource := ⟨true, 2, 2, 30, [sampleFrame, sampleFrame]⟩

def sampleCap3 : VideoSource := ⟨true, 2, 2, 30, [sampleFrame, sampleFrame, sampleFrame]⟩

def sampleClosedCap : VideoSource := ⟨false, 0, 0, 0, []⟩

def healthyMem : Nat → MemInfo := fun _ => ⟨800, 1000⟩

def lowMem : Nat → MemInfo := fun _ => ⟨50, 1000⟩

/-! ### The claims -/

/-- C1: on a successful run of the frame-resample stage over an opened
source, the intermediate file holds exactly one frame per decodable source
frame, every frame in it has the configured target resolution, and the file
was created at the requested path with the source frame rate. -/
theorem claim_C1 (input_path : String) (cap : VideoSource) (temp_path : String)
    (target : Nat × Nat) (interp : Nat) (mem : Nat → MemInfo) (chunk_size : Nat)
    (hopen : cap.opened = true)
    (hok : (upscale_video input_path cap temp_path target interp mem chunk_size).result = .ok ()) :
    ∃ fl, (upscale_video input_path cap temp_path target interp mem chunk_size).file = some fl ∧
      fl.frames.length = cap.frames.length ∧
      (∀ fr ∈ fl.frames, fr.width = target.1 ∧ fr.height = target.2) ∧
      fl.fps = cap.fps ∧ fl.path = temp_path := by
  rw [upscale_video_opened input_path cap temp_path target interp mem chunk_size hopen] at hok ⊢
  cases hr : runFrames target interp mem chunk_size cap.frames ⟨[], 0, 0⟩ with
  | error e =>
    obtain ⟨msg, stq⟩ := e
    rw [hr] at hok
    exact absurd hok (by simp)
  | ok st =>
    obtain ⟨hlen, hmem⟩ := runFrames_ok_spec target interp mem chunk_size cap.frames _ _ hr
    refine ⟨⟨temp_path, cap.fps, st.written⟩, rfl, ?_, ?_, rfl, rfl⟩
    · simpa using hlen
    · intro fr hfr
      rcases hmem fr hfr with hin | hd
      · exact absurd hin (by simp)
      · exact hd

theorem claim_C1_witness :
    sampleCap.opened = true ∧
    (upscale_video "input.mp4" sampleCap "out/temp_upscaled_video.mp4" (4, 4) 1 healthyMem 100).result = .ok () ∧
    ∃ fl, (upscale_video "input.mp4" sampleCap "out/temp_upscaled_video.mp4" (4, 4) 1 healthyMem 100).file = some fl ∧
      fl.frames.length = sampleCap.frames.length ∧
      (∀ fr ∈ fl.frames, fr.width = (4, 4).1 ∧ fr.height = (4, 4).2) ∧
      fl.fps = sampleCap.fps ∧ fl.path = "out/temp_upscaled_video.mp4" :=
  ⟨rfl, rfl,
    claim_C1 "input.mp4" sampleCap "out/temp_upscaled_video.mp4" (4, 4) 1 healthyMem 100 rfl rfl⟩

/-- C2: when the first periodic memory check (reached after `chunk_size`
frames) sees available memory below 10% of total, `upscale_video` raises
the memory-specific error and resizes and writes no further frame: the
intermediate file holds exactly the resized first `chunk_size` frames. -/
theorem claim_C2 (input_path : String) (cap : VideoSource) (temp_path : String)
    (target : Nat × Nat) (interp : Nat) (mem : Nat → MemInfo) (chunk_size : Nat)
    (hopen : cap.opened = true) (hcs : 0 < chunk_size)
    (hlen : chunk_size ≤ cap.frames.length)
    (hlow : 10 * (mem 0).available < (mem 0).total) :
    (upscale_video input_path cap temp_path target interp mem chunk_size).result =
      .error (.memoryError "System is running out of memory. Aborting process.") ∧
    ∃ fl, (upscale_video input_path cap temp_path target interp mem chunk_size).file = some fl ∧
      fl.frames = (cap.frames.take chunk_size).map (fun f => cv2_resize f target interp) ∧
      fl.frames.length = chunk_size := by
  have habort := runFrames_low_abort target interp mem chunk_size hlow cap.frames ⟨[], 0, 0⟩
    rfl hcs (by simpa using hlen)
  rw [upscale_video_opened input_path cap temp_path target interp mem chunk_size hopen, habort]
  refine ⟨rfl, ⟨_, rfl, rfl, ?_⟩⟩
  show ((cap.frames.take (chunk_size - 0)).map (fun f => cv2_resize f target interp)).length = chunk_size
  simp only [Nat.sub_zero, List.length_map, List.length_take]
  exact Nat.min_eq_left hlen

theorem claim_C2_witness :
    sampleCap3.opened = true ∧ 0 < 2 ∧ 2 ≤ sampleCap3.frames.length ∧
    10 * (lowMem 0).available < (lowMem 0).total ∧
    ((upscale_video "in.mp4" sampleCap3 "t.mp4" (4, 4) 1 lowMem 2).result =
        .error (.memoryError "System is running out of memory. Aborting process.") ∧
      ∃ fl, (upscale_video "in.mp4" sampleCap3 "t.mp4" (4, 4) 1 lowMem 2).file = some fl ∧
        fl.frames = (sampleCap3.frames.take 2).map (fun f => cv2_resize f (4, 4) 1) ∧
        fl.frames.length = 2) :=
  ⟨rfl, by decide, by decide, by decide,
    claim_C2 "in.mp4" sampleCap3 "t.mp4" (4, 4) 1 lowMem 2 rfl (by decide) (by decide) (by decide)⟩

/-- C9: a source with fewer decodable frames than `chunk_size` never
triggers a memory check: no memory sample is taken, the outcome does not
depend on the reported memory state at all, and the run can never end in
the memory error. -/
theorem claim_C9 (input_path : String) (cap : VideoSource) (temp_path : String)
    (target : Nat × Nat) (interp : Nat) (mem mem2 : Nat → MemInfo) (chunk_size : Nat)
    (hlen : cap.frames.length < chunk_size) :
    (upscale_video input_path cap temp_path target interp mem chunk_size).memChecks = 0 ∧
    upscale_video input_path cap temp_path target interp mem chunk_size =
      upscale_video input_path cap temp_path target interp mem2 chunk_size ∧
    ∀ m, (upscale_video input_path cap temp_path target interp mem chunk_size).result ≠
      Except.error (.memoryError m) := by
  cases hop : cap.opened with
  | false =>
    rw [upscale_video_not_opened input_path cap temp_path target interp mem chunk_size hop,
      upscale_video_not_opened input_path cap temp_path target interp mem2 chunk_size hop]
    exact ⟨rfl, rfl, fun m h => by simp at h⟩
  | true =>
    have h1 := runFrames_no_check target interp mem chunk_size cap.frames ⟨[], 0, 0⟩
      (by simpa using hlen)
    have h2 := runFrames_no_check target interp mem2 chunk_size cap.frames ⟨[], 0, 0⟩
      (by simpa using hlen)
    rw [upscale_video_opened input_path cap temp_path target interp mem chunk_size hop,
      upscale_video_opened input_path cap temp_path target interp mem2 chunk_size hop, h1, h2]
    exact ⟨rfl, rfl, fun m h => by simp at h⟩

theorem claim_C9_witness :
    sampleCap.frames.length < 100 ∧
    ((upscale_video "in.mp4" sampleCap "t.mp4" (4, 4) 1 lowMem 100).memChecks = 0 ∧
      upscale_video "in.mp4" sampleCap "t.mp4" (4, 4) 1 lowMem 100 =
        upscale_video "in.mp4" sampleCap "t.mp4" (4, 4) 1 healthyMem 100 ∧
      ∀ m, (upscale_video "in.mp4" sampleCap "t.mp4" (4, 4) 1 lowMem 100).result ≠
        Except.error (.memoryError m)) :=
  ⟨by decide, claim_C9 "in.mp4" sampleCap "t.mp4" (4, 4) 1 lowMem healthyMem 100 (by decide)⟩

/-- C3: `get_interpolation_method` succeeds exactly on the four recognized
method names, returns the matching cv2 kernel constant for each of them,
and raises the `ValueError` with the offending name for every other
string. -/
theorem claim_C3 :
    (∀ s, (∃ k, get_interpolation_method s = .ok k) ↔
      (s = "INTER_LINEAR" ∨ s = "INTER_NEAREST" ∨ s = "INTER_CUBIC" ∨ s = "INTER_LANCZOS4")) ∧
    get_interpolation_method "INTER_LINEAR" = .ok cv2.INTER_LINEAR ∧
    get_interpolation_method "INTER_NEAREST" = .ok cv2.INTER_NEAREST ∧
    get_interpolation_method "INTER_CUBIC" = .ok cv2.INTER_CUBIC ∧
    get_interpolation_method "INTER_LANCZOS4" = .ok cv2.INTER_LANCZOS4 ∧
    ∀ s, s ≠ "INTER_LINEAR" → s ≠ "INTER_NEAREST" → s ≠ "INTER_CUBIC" →
      s ≠ "INTER_LANCZOS4" →
      get_interpolation_method s = .error ("Invalid interpolation method: " ++ s) := by
  refine ⟨?_, by decide, by decide, by decide, by decide, ?_⟩
  · intro s
    constructor
    · rintro ⟨k, hk⟩
      unfold get_interpolation_method at hk
      split_ifs at hk with h1 h2 h3 h4
      · exact Or.inl h1
      · exact Or.inr (Or.inl h2)
      · exact Or.inr (Or.inr (Or.inl h3))
      · exact Or.inr (Or.inr (Or.inr h4))
    · rintro (rfl | rfl | rfl | rfl)
      · exact ⟨cv2.INTER_LINEAR, by decide⟩
      · exact ⟨cv2.INTER_NEAREST, by decide⟩
      · exact ⟨cv2.INTER_CUBIC, by decide⟩
      · exact ⟨cv2.INTER_LANCZOS4, by decide⟩
  · intro s h1 h2 h3 h4
    unfold get_interpolation_method
    rw [if_neg h1, if_neg h2, if_neg h3, if_neg h4]

theorem claim_C3_witness :
    "INTER_AREA" ≠ "INTER_LINEAR" ∧ "INTER_AREA" ≠ "INTER_NEAREST" ∧
    "INTER_AREA" ≠ "INTER_CUBIC" ∧ "INTER_AREA" ≠ "INTER_LANCZOS4" ∧
    get_interpolation_method "INTER_AREA" =
      .error ("Invalid interpolation method: " ++ "INTER_AREA") :=
  ⟨by decide, by decide, by decide, by decide,
    claim_C3.2.2.2.2.2 "INTER_AREA" (by decide) (by decide) (by decide) (by decide)⟩

/-- C4: when the input cannot be opened as a video source, `upscale_video`
raises before the `VideoWriter` is constructed, so no intermediate file
comes into existence; correspondingly a full run of `main` on such an input
exits with code 1 with no intermediate file ever created and no cleanup
reached. -/
theorem claim_C4 :
    (∀ (input_path : String) (cap : VideoSource) (temp_path : String)
      (target : Nat × Nat) (interp : Nat) (mem : Nat → MemInfo) (chunk_size : Nat),
      cap.opened = false →
      (upscale_video input_path cap temp_path target interp mem chunk_size).result =
        .error (.openFailure ("Unable to open video file: " ++ input_path)) ∧
      (upscale_video input_path cap temp_path target interp mem chunk_size).file = none) ∧
    (∀ (env : Env) (c : Config), env.config = .ok c →
      (env.openVideo c.input_video).opened = false →
      (main env).tempCreated = none ∧ (main env).tempFile = none ∧
      (main env).exitCode = 1 ∧ (main env).cleanupCalled = false) := by
  constructor
  · intro ip cap p t i mem cs hopen
    rw [upscale_video_not_opened ip cap p t i mem cs hopen]
    exact ⟨rfl, rfl⟩
  · intro env c hc hopen
    cases hg : get_interpolation_method c.interpolation_method with
    | error e =>
      rw [main_interp_error env c e hc hg]
      exact ⟨rfl, rfl, rfl, rfl⟩
    | ok i =>
      rw [main_interp_ok env c i hc hg]
      have hcap : (mainUpscale env c i).result =
          .error (.openFailure ("Unable to open video file: " ++ c.input_video)) ∧
          (mainUpscale env c i).file = none := by
        unfold mainUpscale
        rw [upscale_video_not_opened c.input_video (env.openVideo c.input_video)
          (osPathJoin c.output_folder "temp_upscaled_video.mp4") c.target_resolution i
          env.mem default_chunk_size hopen]
        exact ⟨rfl, rfl⟩
      rw [mainAfterInterp_upscale_error env c i _ hcap.1, hcap.2]
      exact ⟨rfl, rfl, rfl, rfl⟩

def sampleConfig : Config := ⟨"logs", "INTER_LINEAR", "out", "missing.mp4", (4, 4), "final.mp4"⟩

def sampleEnvBad : Env := ⟨.ok sampleConfig, fun _ => sampleClosedCap, healthyMem, true, true⟩

theorem claim_C4_witness :
    sampleClosedCap.opened = false ∧
    ((upscale_video "missing.mp4" sampleClosedCap "t.mp4" (4, 4) 1 healthyMem 100).result =
        .error (.openFailure ("Unable to open video file: " ++ "missing.mp4")) ∧
      (upscale_video "missing.mp4" sampleClosedCap "t.mp4" (4, 4) 1 healthyMem 100).file = none) ∧
    sampleEnvBad.config = .ok sampleConfig ∧
    (sampleEnvBad.openVideo sampleConfig.input_video).opened = false ∧
    ((main sampleEnvBad).tempCreated = none ∧ (main sampleEnvBad).tempFile = none ∧
      (main sampleEnvBad).exitCode = 1 ∧ (main sampleEnvBad).cleanupCalled = false) :=
  ⟨rfl, claim_C4.1 "missing.mp4" sampleClosedCap "t.mp4" (4, 4) 1 healthyMem 100 rfl,
    rfl, rfl, claim_C4.2 sampleEnvBad sampleConfig rfl rfl⟩

/-- C7: `cleanup_temp_file` (with `os.remove` behaving normally) removes
the file when it exists and only warns when it does not; it never raises,
and a second call on the resulting state raises nothing and leaves the same
final state — the file absent — as a single call. -/
theorem claim_C7 (file : Option IntermediateFile) :
    (cleanup_temp_file file true).raised = false ∧
    (cleanup_temp_file file true).file = none ∧
    (cleanup_temp_file file true).removed = file.isSome ∧
    (cleanup_temp_file file true).warnedMissing = !file.isSome ∧
    (cleanup_temp_file (cleanup_temp_file file true).file true).raised = false ∧
    (cleanup_temp_file (cleanup_temp_file file true).file true).file =
      (cleanup_temp_file file true).file := by
  cases file <;> exact ⟨rfl, rfl, rfl, rfl, rfl, rfl⟩

/-- C10: `cleanup_temp_file` never propagates an exception to its caller:
for every file state and every outcome of the removal attempt the catch-all
handler returns normally, logging an error exactly when an existing file
failed to be removed (in which case the file is left as it was). -/
theorem claim_C10 (file : Option IntermediateFile) (remove_ok : Bool) :
    (cleanup_temp_file file remove_ok).raised = false ∧
    (cleanup_temp_file file remove_ok).errorLogged = (file.isSome && !remove_ok) ∧
    (cleanup_temp_file file false).file = file := by
  cases file <;> cases remove_ok <;> exact ⟨rfl, rfl, rfl⟩

theorem cleanup_temp_file_true_none (file : Option IntermediateFile) :
    (cleanup_temp_file file true).file = none := by
  cases file <;> rfl

theorem upscale_video_file_path (ip : String) (cap : VideoSource) (p : String)
    (t : Nat × Nat) (i : Nat) (mem : Nat → MemInfo) (cs : Nat) (fl : IntermediateFile)
    (h : (upscale_video ip cap p t i mem cs).file = some fl) : fl.path = p := by
  cases hop : cap.opened with
  | false =>
    rw [upscale_video_not_opened ip cap p t i mem cs hop] at h
    exact absurd h (by simp)
  | true =>
    rw [upscale_video_opened ip cap p t i mem cs hop] at h
    cases hr : runFrames t i mem cs cap.frames ⟨[], 0, 0⟩ with
    | ok st =>
      rw [hr] at h
      simp only [Option.some.injEq] at h
      rw [← h]
    | error e =>
      obtain ⟨msg, st⟩ := e
      rw [hr] at h
      simp only [Option.some.injEq] at h
      rw [← h]

/-- C5: the intermediate artifact only ever comes into existence at
`os.path.join(output_folder, temp_upscaled_video.mp4)`; with `os.remove`
behaving normally, the cleanup step runs exactly when both the resample
stage and the audio stage complete successfully — deleting the file — and
on failure of either stage cleanup is not reached and whatever the resample
stage left on disk stays in place. -/
theorem claim_C5 (env : Env) (c : Config) (hc : env.config = .ok c)
    (hrm : env.remove_ok = true) :
    (∀ fl, (main env).tempCreated = some fl →
      fl.path = osPathJoin c.output_folder "temp_upscaled_video.mp4") ∧
    ((main env).cleanupCalled = true ↔
      ((main env).upscaleOk = true ∧ (main env).audioOk = true)) ∧
    ((main env).cleanupCalled = true → (main env).tempFile = none) ∧
    ((main env).cleanupCalled = false → (main env).tempFile = (main env).tempCreated) := by
  cases hg : get_interpolation_method c.interpolation_method with
  | error e =>
    rw [main_interp_error env c e hc hg]
    exact ⟨fun fl h => absurd h (by simp), by simp, fun h => absurd h (by simp), fun _ => rfl⟩
  | ok i =>
    rw [main_interp_ok env c i hc hg]
    have hpath : ∀ fl, (mainUpscale env c i).file = some fl →
        fl.path = osPathJoin c.output_folder "temp_upscaled_video.mp4" := by
      intro fl h
      unfold mainUpscale at h
      exact upscale_video_file_path _ _ _ _ _ _ _ fl h
    cases hres : (mainUpscale env c i).result with
    | error err =>
      rw [mainAfterInterp_upscale_error env c i err hres]
      exact ⟨fun fl h => hpath fl h, by simp, fun h => absurd h (by simp), fun _ => rfl⟩
    | ok u =>
      cases ha : env.audio_ok with
      | true =>
        rw [mainAfterInterp_audio env c i hres ha, hrm]
        exact ⟨fun fl h => hpath fl h, by simp,
          fun _ => cleanup_temp_file_true_none _, fun h => absurd h (by simp)⟩
      | false =>
        rw [mainAfterInterp_no_audio env c i hres ha]
        exact ⟨fun fl h => hpath fl h, by simp, fun h => absurd h (by simp), fun _ => rfl⟩

def sampleEnvGood : Env := ⟨.ok sampleConfig, fun _ => sampleCap, healthyMem, true, true⟩

theorem claim_C5_witness :
    sampleEnvGood.config = .ok sampleConfig ∧ sampleEnvGood.remove_ok = true ∧
    ((∀ fl, (main sampleEnvGood).tempCreated = some fl →
        fl.path = osPathJoin sampleConfig.output_folder "temp_upscaled_video.mp4") ∧
      ((main sampleEnvGood).cleanupCalled = true ↔
        ((main sampleEnvGood).upscaleOk = true ∧ (main sampleEnvGood).audioOk = true)) ∧
      ((main sampleEnvGood).cleanupCalled = true → (main sampleEnvGood).tempFile = none) ∧
      ((main sampleEnvGood).cleanupCalled = false →
        (main sampleEnvGood).tempFile = (main sampleEnvGood).tempCreated)) :=
  ⟨rfl, rfl, claim_C5 sampleEnvGood sampleConfig rfl rfl⟩

/-- C6: every run of `main` exits with code 0 or 1; the exit code is 0
exactly when the resample stage and the audio stage both succeeded (all
stages of a run), and any configuration-loading failure exits with code
1. -/
theorem claim_C6 (env : Env) :
    ((main env).exitCode = 0 ∨ (main env).exitCode = 1) ∧
    ((main env).exitCode = 0 ↔ ((main env).upscaleOk = true ∧ (main env).audioOk = true)) ∧
    (∀ e, env.config = .error e → (main env).exitCode = 1) := by
  cases hc : env.config with
  | error e =>
    rw [main_config_error env e hc]
    exact ⟨Or.inr rfl, by simp, fun _ _ => rfl⟩
  | ok c =>
    cases hg : get_interpolation_method c.interpolation_method with
    | error e =>
      rw [main_interp_error env c e hc hg]
      exact ⟨Or.inr rfl, by simp, fun _ _ => rfl⟩
    | ok i =>
      rw [main_interp_ok env c i hc hg]
      cases hres : (mainUpscale env c i).result with
      | error err =>
        rw [mainAfterInterp_upscale_error env c i err hres]
        exact ⟨Or.inr rfl, by simp, fun _ _ => rfl⟩
      | ok u =>
        cases ha : env.audio_ok with
        | true =>
          rw [mainAfterInterp_audio env c i hres ha]
          exact ⟨Or.inl rfl, by simp, fun e2 he => Except.noConfusion he⟩
        | false =>
          rw [mainAfterInterp_no_audio env c i hres ha]
          exact ⟨Or.inr rfl, by simp, fun _ _ => rfl⟩

theorem claim_C6_witness :
    ((main sampleEnvGood).exitCode = 0 ∨ (main sampleEnvGood).exitCode = 1) ∧
    ((main sampleEnvGood).exitCode = 0 ↔
      ((main sampleEnvGood).upscaleOk = true ∧ (main sampleEnvGood).audioOk = true)) ∧
    (∀ e, sampleEnvGood.config = .error e → (main sampleEnvGood).exitCode = 1) :=
  claim_C6 sampleEnvGood

/-- C8 counterexample: with source width 3 and scale factor 3/2 the code
computes the target width `int(3 * 1.5) = 4`, which is not the exact
product 4.5, so the target width does not equal width × scale_factor for
every scale factor. -/
theorem claim_C8_counterexample :
    ((upscaled_size 3 5 (3 / 2)).1 : ℚ) ≠ (3 : Nat) * (3 / 2 : ℚ) := by
  have h1 : (upscaled_size 3 5 (3 / 2)).1 = 4 := by
    show pyInt ((3 : Nat) * (3 / 2 : ℚ)) = 4
    unfold pyInt
    rw [if_pos (by norm_num)]
    rw [show ((3 : Nat) : ℚ) * (3 / 2) = 9 / 2 by norm_num]
    rw [Int.floor_eq_iff]
    norm_num
  rw [h1]
  norm_num

/-- C8 (amended): the target size derived from a scale factor is the
truncation toward zero of width × scale_factor and height × scale_factor:
for a nonnegative factor it is their floor — within 1 below the exact
product — and equals the exact product exactly when that product is an
integer, in particular for every integer scale factor. -/
theorem claim_C8_amended (width height : Nat) (scale_factor : ℚ)
    (hsf : 0 ≤ scale_factor) :
    (((upscaled_size width height scale_factor).1 : ℚ) ≤ width * scale_factor ∧
      (width : ℚ) * scale_factor - 1 < (upscaled_size width height scale_factor).1) ∧
    (((upscaled_size width height scale_factor).2 : ℚ) ≤ height * scale_factor ∧
      (height : ℚ) * scale_factor - 1 < (upscaled_size width height scale_factor).2) ∧
    (∀ z : ℤ, (width : ℚ) * scale_factor = z →
      (upscaled_size width height scale_factor).1 = z) ∧
    (∀ z : ℤ, (height : ℚ) * scale_factor = z →
      (upscaled_size width height scale_factor).2 = z) := by
  have hw : 0 ≤ (width : ℚ) * scale_factor := mul_nonneg (Nat.cast_nonneg width) hsf
  have hh : 0 ≤ (height : ℚ) * scale_factor := mul_nonneg (Nat.cast_nonneg height) hsf
  have e1 : (upscaled_size width height scale_factor).1 = ⌊(width : ℚ) * scale_factor⌋ := by
    show pyInt ((width : ℚ) * scale_factor) = _
    unfold pyInt
    rw [if_pos hw]
  have e2 : (upscaled_size width height scale_factor).2 = ⌊(height : ℚ) * scale_factor⌋ := by
    show pyInt ((height : ℚ) * scale_factor) = _
    unfold pyInt
    rw [if_pos hh]
  refine ⟨⟨?_, ?_⟩, ⟨?_, ?_⟩, ?_, ?_⟩
  · rw [e1]; exact Int.floor_le _
  · rw [e1]; exact Int.sub_one_lt_floor _
  · rw [e2]; exact Int.floor_le _
  · rw [e2]; exact Int.sub_one_lt_floor _
  · intro z hz; rw [e1, hz, Int.floor_intCast]
  · intro z hz; rw [e2, hz, Int.floor_intCast]

theorem claim_C8_witness :
    (0 : ℚ) ≤ 2 ∧ (upscaled_size 3 5 2).1 = 6 ∧ (upscaled_size 3 5 2).2 = 10 :=
  ⟨by norm_num,
    (claim_C8_amended 3 5 2 (by norm_num)).2.2.1 6 (by norm_num),
    (claim_C8_amended 3 5 2 (by norm_num)).2.2.2 10 (by norm_num)⟩

end VideoUpscaling
